import Mathlib

/-
Verification of the qw command-line wrapper (qw.py): a shallow embedding of
its data model and control flow, with theorems about the behaviour its
specification describes.  Side effects (prints, subprocess launches, the HTTP
post, the log write) are modelled as an ordered event trace; the environment
record carries the outcome of each external interaction.  The numeric values
of the float sampling parameters are irrelevant to every property proved here
(only their presence matters), so they are carried as integers.
-/

set_option maxHeartbeats 1000000

namespace MiniQwen

/-- Result of a finished subprocess: exit code plus captured output streams. -/
structure SubprocResult where
  returncode : Int
  stdout : String
  stderr : String
  deriving DecidableEq

/-- Python str.strip: drop leading and trailing whitespace characters.
Defined by structural recursion over the character list so that concrete
runs evaluate inside the kernel. -/
def strip (s : String) : String :=
  ⟨((s.data.dropWhile Char.isWhitespace).reverse.dropWhile Char.isWhitespace).reverse⟩

/-- Python-style `a or b` on strings: the empty string is falsy. -/
def pyOrStr (a b : String) : String := if a = "" then b else a

/-- Python-style `n or 1` on an integer exit code: zero is falsy
(source: `sys.exit(res.returncode or 1)` in maybe_auto_pull). -/
def pyOrIntOne (n : Int) : Int := if n = 0 then 1 else n

/-- Fields of one parsed streamed JSON object from the inference server
(wire contract: optional error, response, done fields). -/
structure Msg where
  error : Option String := none
  response : Option String := none
  done : Bool := false
  deriving DecidableEq

/-- Python truthiness of `msg.get("error")`: present and non-empty. -/
def Msg.errTruthy (m : Msg) : Bool :=
  match m.error with
  | some s => s != ""
  | none => false

/-- One streamed line: blank (skipped by the loop) or a parsed JSON object. -/
inductive Line where
  | blank
  | msg (m : Msg)
  deriving DecidableEq

/-- The chunk contributed by one parsed object: its response field as a
singleton when the key is present. -/
def respList (m : Msg) : List String :=
  match m.response with
  | some r => [r]
  | none => []

/-- The read loop of run_qwen over the already parsed stream lines:
skip blank lines; raise on a truthy error field; append the response
fragment when the key is present; stop after a line whose done flag is
truthy.  Returns the accumulated chunk list or the raised error text. -/
def processStream : List Line → Except String (List String)
  | [] => Except.ok []
  | Line.blank :: rest => processStream rest
  | Line.msg m :: rest =>
    if m.errTruthy then Except.error (m.error.getD "")
    else if m.done then Except.ok (respList m)
    else Except.map (fun cs => respList m ++ cs) (processStream rest)

/-- The reply run_qwen returns for a given line sequence:
`"".join(chunks).strip()` on success. -/
def runQwenStream (lines : List Line) : Except String String :=
  Except.map (fun cs => strip (String.join cs)) (processStream lines)

/-- Lines up to and including the first line whose done field is true
(the whole stream when no such line exists).  Spec-side description used
to compare with the implementation loop. -/
def takeToFirstDone : List Line → List Line
  | [] => []
  | Line.blank :: rest => Line.blank :: takeToFirstDone rest
  | Line.msg m :: rest =>
    if m.done then [Line.msg m] else Line.msg m :: takeToFirstDone rest

/-- Response field of a line, when the line is an object carrying one. -/
def lineResponse : Line → Option String
  | Line.blank => none
  | Line.msg m => m.response

/-- Spec-side description of the reply: concatenation, in stream order, of
the response fields of the lines up to and including the first done line,
trimmed of surrounding whitespace. -/
def specReply (lines : List Line) : String :=
  strip (String.join ((takeToFirstDone lines).filterMap lineResponse))

/-- JSON-like values appearing in the request payload. -/
inductive JVal where
  | s (v : String)
  | b (v : Bool)
  | i (v : Int)
  | arr (v : List String)
  deriving DecidableEq

/-- Payload entry for an optional numeric sampling parameter
(`if x is not None: payload[key] = x`). -/
def optEntry (key : String) : Option Int → List (String × JVal)
  | some v => [(key, JVal.i v)]
  | none => []

/-- The request payload built by run_qwen, as an ordered key-value list:
model, prompt, stream always; system only when non-empty; each sampling
parameter only when supplied; stop only when a non-empty list. -/
def buildPayload (model prompt : String) (temp top_p max_tokens seed : Option Int)
    (system : String) (stop : Option (List String)) : List (String × JVal) :=
  [("model", JVal.s model), ("prompt", JVal.s prompt), ("stream", JVal.b true)]
  ++ (if system = "" then [] else [("system", JVal.s system)])
  ++ optEntry "temperature" temp
  ++ optEntry "top_p" top_p
  ++ optEntry "max_tokens" max_tokens
  ++ optEntry "seed" seed
  ++ (match stop with
      | some l => if l = [] then [] else [("stop", JVal.arr l)]
      | none => [])

/-- Parsed command line of qw (argparse result). -/
structure Args where
  prompt : List String := []
  codex : Bool := false
  claude : Bool := false
  model : String := "qwen2.5-coder:0.5b-instruct"
  timeout : String := "180"
  temp : Option Int := none
  top_p : Option Int := none
  max_tokens : Option Int := none
  sys_path : Option String := none
  quiet : Bool := false
  json : Bool := false
  seed : Option Int := none
  stop : Option (List String) := none
  auto_pull : Bool := false
  execute : Bool := false
  log_file : Option String := none
  deriving DecidableEq

/-- One JSONL record appended by log_run. -/
structure LogRecord where
  prompt : String
  qwen : String
  codex : Option String
  claude : Option String
  deriving DecidableEq

/-- Observable effects of a run, in order of occurrence. -/
inductive Event where
  | errPrint (s : String)
  | echoPrint (s : String)
  | sectionPrint (tool s : String)
  | execPrint (s : String)
  | jsonPrint (obj : List (String × String))
  | httpPost (payload : List (String × JVal))
  | runProc (argv : List String)
  | logWrite (rec : LogRecord)
  deriving DecidableEq

/-- Outcomes of the external world consulted during a run. -/
structure Env where
  stdinData : String
  which : String → Bool
  sysRead : Except String String
  pullRes : SubprocResult
  httpLines : Except String (List Line)
  codexRes : SubprocResult
  claudeRes : SubprocResult
  logRes : Except String Unit
  shellRes : SubprocResult

/-- get_prompt: join positional tokens with single spaces and trim when
present; otherwise the trimmed stdin; usage error and exit 1 when both are
missing. -/
def getPrompt (prompt : List String) (stdinData : String) :
    Except (List Event × Int) String :=
  if prompt = [] then
    if strip stdinData = "" then
      Except.error ([Event.errPrint "qw: provide a prompt as args or stdin"], 1)
    else Except.ok (strip stdinData)
  else Except.ok (strip (String.intercalate " " prompt))

/-- Binaries required by the requested relays, in the order main builds them. -/
def requiredBins (args : Args) : List String :=
  (if args.codex then ["codex"] else []) ++ (if args.claude then ["claude"] else [])

/-- ensure_bins: report every missing binary in one message and exit 1. -/
def ensureBins (bins : List String) (which : String → Bool) :
    Except (List Event × Int) Unit :=
  let missing := bins.filter (fun b => !(which b))
  if missing = [] then Except.ok ()
  else
    Except.error
      ([Event.errPrint ("qw: missing required command(s): " ++ String.intercalate ", " missing)], 1)

/-- load_sys_prompt: empty path yields the empty string; a read failure is
reported and exits 1. -/
def loadSysPrompt (path : Option String) (readRes : Except String String) :
    Except (List Event × Int) String :=
  match path with
  | none => Except.ok ""
  | some p =>
    if p = "" then Except.ok ""
    else
      match readRes with
      | Except.ok t => Except.ok t
      | Except.error e =>
        Except.error ([Event.errPrint ("qw: failed to read system prompt file: " ++ e)], 1)

/-- maybe_auto_pull: run the pull subprocess; on failure print its stderr,
else stdout, else a generic message, and exit with its return code
(`sys.exit(res.returncode or 1)`). -/
def maybeAutoPull (model : String) (res : SubprocResult) :
    Except (List Event × Int) (List Event) :=
  let ev : List Event := [Event.runProc ["ollama", "pull", model]]
  if res.returncode = 0 then Except.ok ev
  else
    Except.error
      (ev ++ [Event.errPrint (pyOrStr res.stderr (pyOrStr res.stdout "qw: ollama pull failed"))],
        pyOrIntOne res.returncode)

/-- The optional auto-pull step of main. -/
def autoPullStep (args : Args) (res : SubprocResult) :
    Except (List Event × Int) (List Event) :=
  if args.auto_pull then maybeAutoPull args.model res else Except.ok []

/-- run_qwen: post the payload, process the streamed lines, trim the joined
chunks; any failure is printed with the qw prefix and exits 1. -/
def runQwen (args : Args) (prompt system : String)
    (httpLines : Except String (List Line)) :
    Except (List Event × Int) (List Event × String) :=
  let payload :=
    buildPayload args.model prompt args.temp args.top_p args.max_tokens args.seed system args.stop
  let ev : List Event := [Event.httpPost payload]
  match httpLines with
  | Except.error e =>
    Except.error (ev ++ [Event.errPrint ("qw: qwen request failed: " ++ e)], 1)
  | Except.ok lines =>
    match processStream lines with
    | Except.error e =>
      Except.error (ev ++ [Event.errPrint ("qw: qwen request failed: " ++ e)], 1)
    | Except.ok cs => Except.ok (ev, strip (String.join cs))

/-- One relay invocation: on non-zero exit print stderr, else stdout, else
the generic message, and fail with that exit code; on success the trimmed
stdout becomes the reply and a section is printed unless in JSON mode. -/
def relayRun (tool : String) (argv : List String) (res : SubprocResult)
    (jsonMode : Bool) (genericMsg : String) :
    Except (List Event × Int) (List Event × String) :=
  let ev : List Event := [Event.runProc argv]
  if res.returncode = 0 then
    let reply := strip res.stdout
    Except.ok (ev ++ (if jsonMode then [] else [Event.sectionPrint tool reply]), reply)
  else
    Except.error
      (ev ++ [Event.errPrint (pyOrStr res.stderr (pyOrStr res.stdout genericMsg))], res.returncode)

/-- The single JSON object printed in JSON mode: qwen always, codex and
claude only when that relay ran. -/
def jsonObj (qwen : String) (codex claude : Option String) : List (String × String) :=
  [("qwen", qwen)]
  ++ (match codex with | some c => [("codex", c)] | none => [])
  ++ (match claude with | some c => [("claude", c)] | none => [])

/-- run_shell: invoke /bin/sh -c on the text, echo captured stdout and
stderr under labelled headers, and exit with the command code when
non-zero.  Returns the events of this step and the resulting exit code. -/
def runShellCore (cmd : String) (res : SubprocResult) : List Event × Int :=
  ([Event.runProc ["/bin/sh", "-c", cmd]]
    ++ (if res.stdout = "" then []
        else [Event.execPrint ("\n--- execute stdout ---\n" ++ strip res.stdout)])
    ++ (if res.stderr = "" then []
        else [Event.errPrint ("\n--- execute stderr ---\n" ++ strip res.stderr)]),
    if res.returncode = 0 then 0 else res.returncode)

/-- The execute step of main: `to_run = codex_reply or claude_reply or
qwen_reply`; when that is empty report and exit 1, else run the shell. -/
def executeCore (args : Args) (shellRes : SubprocResult) (qwen : String)
    (codex claude : Option String) : List Event × Int :=
  if args.execute then
    if pyOrStr (codex.getD "") (pyOrStr (claude.getD "") qwen) = "" then
      ([Event.errPrint "qw: nothing to execute"], 1)
    else runShellCore (pyOrStr (codex.getD "") (pyOrStr (claude.getD "") qwen)) shellRes
  else ([], 0)

/-- The events of the logging step: one record on success, one error-stream
report on failure, nothing when no log file was requested. -/
def logEventsOf (args : Args) (logRes : Except String Unit) (prompt qwen : String)
    (codex claude : Option String) : List Event :=
  match args.log_file with
  | none => []
  | some p =>
    if p = "" then []
    else
      match logRes with
      | Except.ok _ => [Event.logWrite ⟨prompt, qwen, codex, claude⟩]
      | Except.error e => [Event.errPrint ("qw: failed to log run: " ++ e)]

/-- The logging step of main (non-fatal either way), then the execute step. -/
def logCore (args : Args) (logRes : Except String Unit) (shellRes : SubprocResult)
    (prompt qwen : String) (codex claude : Option String) : List Event × Int :=
  (logEventsOf args logRes prompt qwen codex claude
      ++ (executeCore args shellRes qwen codex claude).1,
    (executeCore args shellRes qwen codex claude).2)

/-- The JSON printing step of main, then logging and execution. -/
def jsonCore (args : Args) (logRes : Except String Unit) (shellRes : SubprocResult)
    (prompt qwen : String) (codex claude : Option String) : List Event × Int :=
  ((if args.json then [Event.jsonPrint (jsonObj qwen codex claude)] else [])
      ++ (logCore args logRes shellRes prompt qwen codex claude).1,
    (logCore args logRes shellRes prompt qwen codex claude).2)

/-- The claude relay step of main. -/
def claudeCore (args : Args) (claudeRes : SubprocResult) (logRes : Except String Unit)
    (shellRes : SubprocResult) (prompt qwen : String) (codex : Option String) :
    List Event × Int :=
  if args.claude then
    match relayRun "claude" ["claude", "-t", args.timeout, qwen] claudeRes args.json
        "qw: claude failed" with
    | Except.error r => r
    | Except.ok (ev, reply) =>
      (ev ++ (jsonCore args logRes shellRes prompt qwen codex (some reply)).1,
        (jsonCore args logRes shellRes prompt qwen codex (some reply)).2)
  else jsonCore args logRes shellRes prompt qwen codex none

/-- The codex relay step of main. -/
def codexCore (args : Args) (codexRes claudeRes : SubprocResult)
    (logRes : Except String Unit) (shellRes : SubprocResult) (prompt qwen : String) :
    List Event × Int :=
  if args.codex then
    match relayRun "codex" ["codex", "exec", "--timeout", args.timeout, qwen] codexRes
        args.json "qw: codex failed" with
    | Except.error r => r
    | Except.ok (ev, reply) =>
      (ev ++ (claudeCore args claudeRes logRes shellRes prompt qwen (some reply)).1,
        (claudeCore args claudeRes logRes shellRes prompt qwen (some reply)).2)
  else claudeCore args claudeRes logRes shellRes prompt qwen none

/-- main over explicit external outcomes: binary check, prompt resolution,
system prompt load, optional auto-pull, inference, optional echo, relays,
JSON output, log, execute.  Returns the event trace and the exit code. -/
def mainGo (args : Args) (stdinData : String) (which : String → Bool)
    (sysRead : Except String String) (pullRes : SubprocResult)
    (httpLines : Except String (List Line)) (codexRes claudeRes : SubprocResult)
    (logRes : Except String Unit) (shellRes : SubprocResult) : List Event × Int :=
  match ensureBins (requiredBins args) which with
  | Except.error r => r
  | Except.ok _ =>
    match getPrompt args.prompt stdinData with
    | Except.error r => r
    | Except.ok prompt =>
      match loadSysPrompt args.sys_path sysRead with
      | Except.error r => r
      | Except.ok system_prompt =>
        match autoPullStep args pullRes with
        | Except.error r => r
        | Except.ok ev0 =>
          match runQwen args prompt system_prompt httpLines with
          | Except.error r => (ev0 ++ r.1, r.2)
          | Except.ok (ev1, qwen_reply) =>
            (ev0 ++ ev1
                ++ (if !args.quiet && !args.json then [Event.echoPrint qwen_reply] else [])
                ++ (codexCore args codexRes claudeRes logRes shellRes prompt qwen_reply).1,
              (codexCore args codexRes claudeRes logRes shellRes prompt qwen_reply).2)

/-- main over an environment record. -/
def mainRun (args : Args) (env : Env) : List Event × Int :=
  mainGo args env.stdinData env.which env.sysRead env.pullRes env.httpLines
    env.codexRes env.claudeRes env.logRes env.shellRes

/-- Spec-side description of the text chosen for execution: the codex reply
when the codex relay ran, else the claude reply when that relay ran, else
the raw model reply, with no regard to emptiness. -/
def specChosenReply (codex claude : Option String) (qwen : String) : String :=
  match codex with
  | some c => c
  | none =>
    match claude with
    | some c => c
    | none => qwen

/-- Whether an event is an invocation of the claude executable. -/
def isClaudeProc : Event → Bool
  | Event.runProc argv => argv.head? == some "claude"
  | _ => false

/-- Whether an event is an invocation of the shell executor. -/
def isShellProc : Event → Bool
  | Event.runProc argv => argv.head? == some "/bin/sh"
  | _ => false

/-- Whether an event is a human-readable reply echo or relay section print. -/
def isHumanPrint : Event → Bool
  | Event.echoPrint _ => true
  | Event.sectionPrint _ _ => true
  | _ => false

/-- The JSON objects printed in a trace, in order. -/
def jsonPrints (evs : List Event) : List (List (String × String)) :=
  evs.filterMap (fun e =>
    match e with
    | Event.jsonPrint o => some o
    | _ => none)

/-- The log records written in a trace, in order. -/
def logWrites (evs : List Event) : List LogRecord :=
  evs.filterMap (fun e =>
    match e with
    | Event.logWrite r => some r
    | _ => none)

/-- A streamed line that neither raises nor stops the loop: blank, or an
object whose error field is falsy and whose done flag is false. -/
def isPassive : Line → Bool
  | Line.blank => true
  | Line.msg m => !m.errTruthy && !m.done

/-- A sample environment in which every external interaction succeeds. -/
def envAllOk : Env where
  stdinData := "ping"
  which := fun _ => true
  sysRead := Except.ok ""
  pullRes := ⟨0, "", ""⟩
  httpLines :=
    Except.ok [Line.msg { response := some "hi" },
      Line.msg { response := some " there", done := true }]
  codexRes := ⟨0, "codex out\n", ""⟩
  claudeRes := ⟨0, "claude out\n", ""⟩
  logRes := Except.ok ()
  shellRes := ⟨0, "", ""⟩

lemma processStream_ok_spec (lines : List Line) (cs : List String)
    (h : processStream lines = Except.ok cs) :
    cs = (takeToFirstDone lines).filterMap lineResponse := by
  induction lines generalizing cs with
  | nil =>
    simp only [processStream] at h
    cases h
    simp [takeToFirstDone]
  | cons hd rest ih =>
    cases hd with
    | blank =>
      simp only [processStream] at h
      simpa [takeToFirstDone, lineResponse] using ih cs h
    | msg m =>
      simp only [processStream] at h
      by_cases he : m.errTruthy
      · rw [if_pos he] at h
        exact absurd h (by simp)
      · rw [if_neg he] at h
        by_cases hd : m.done
        · rw [if_pos hd] at h
          cases h
          cases hm : m.response <;>
            simp [takeToFirstDone, hd, lineResponse, respList, hm]
        · rw [if_neg hd] at h
          cases hr : processStream rest with
          | error e => rw [hr] at h; simp [Except.map] at h
          | ok cs0 =>
            rw [hr] at h
            simp only [Except.map] at h
            cases h
            cases hm : m.response <;>
              simp [takeToFirstDone, hd, lineResponse, respList, ih cs0 hr, hm]

/-- C1: whenever the inference client returns a reply for a streamed line
sequence, that reply equals the concatenation, in stream order, of the
response fields of the non-blank lines up to and including the first line
whose done field is true (later lines contribute nothing, blank lines are
skipped), trimmed of leading and trailing whitespace. -/
theorem stream_reply_matches_spec (lines : List Line) (r : String)
    (h : runQwenStream lines = Except.ok r) : r = specReply lines := by
  unfold runQwenStream at h
  cases hp : processStream lines with
  | error e => rw [hp] at h; simp [Except.map] at h
  | ok cs =>
    rw [hp] at h
    simp only [Except.map] at h
    cases h
    unfold specReply
    rw [processStream_ok_spec lines cs hp]

/-- Witness for C1 at a concrete stream: two fragments, the second on the
done line, a third line after the done line that is ignored. -/
theorem stream_reply_matches_spec_witness :
    runQwenStream [Line.msg { response := some "hi" },
        Line.msg { response := some " there", done := true },
        Line.msg { response := some "zzz" }] = Except.ok "hi there" ∧
      "hi there" = specReply [Line.msg { response := some "hi" },
        Line.msg { response := some " there", done := true },
        Line.msg { response := some "zzz" }] :=
  ⟨by rfl, stream_reply_matches_spec _ "hi there" (by rfl)⟩

lemma processStream_passive_pre (pre tail : List Line)
    (hp : ∀ l ∈ pre, isPassive l = true) (e : String)
    (ht : processStream tail = Except.error e) :
    processStream (pre ++ tail) = Except.error e := by
  induction pre with
  | nil => simpa using ht
  | cons hd rest ih =>
    have hhd : isPassive hd = true := hp hd (by simp)
    have hrest : ∀ l ∈ rest, isPassive l = true := fun l hl => hp l (by simp [hl])
    cases hd with
    | blank => simpa [processStream] using ih hrest
    | msg m =>
      simp only [isPassive, Bool.and_eq_true, Bool.not_eq_true'] at hhd
      simp [processStream, hhd.1, hhd.2, ih hrest, Except.map]

/-- C9: a streamed line with a truthy error field makes the inference call
abort with that error, whatever response fragment or done flag the same
object carries (the third conjunct: the outcome is the same as if the line
had neither field), run_qwen turns this into a failure with exit code 1,
and a run reaching inference therefore terminates with exit status 1. -/
theorem stream_error_precedence (pre : List Line) (m : Msg) (rest : List Line)
    (hpassive : ∀ l ∈ pre, isPassive l = true) (he : m.errTruthy = true) :
    processStream (pre ++ Line.msg m :: rest) = Except.error (m.error.getD "") ∧
    processStream (pre ++ Line.msg m :: rest) =
      processStream (pre ++ Line.msg { error := m.error } :: rest) ∧
    (∀ (args : Args) (prompt system : String),
      runQwen args prompt system (Except.ok (pre ++ Line.msg m :: rest)) =
        Except.error
          ([Event.httpPost (buildPayload args.model prompt args.temp args.top_p
              args.max_tokens args.seed system args.stop),
            Event.errPrint ("qw: qwen request failed: " ++ m.error.getD "")], 1)) ∧
    (∀ (args : Args) (env : Env) (prompt system_prompt : String) (ev0 : List Event),
      ensureBins (requiredBins args) env.which = Except.ok () →
      getPrompt args.prompt env.stdinData = Except.ok prompt →
      loadSysPrompt args.sys_path env.sysRead = Except.ok system_prompt →
      autoPullStep args env.pullRes = Except.ok ev0 →
      env.httpLines = Except.ok (pre ++ Line.msg m :: rest) →
      (mainRun args env).2 = 1) := by
  have herr : ∀ rest2 : List Line, ∀ m2 : Msg, m2.errTruthy = true →
      processStream (pre ++ Line.msg m2 :: rest2) = Except.error (m2.error.getD "") := by
    intro rest2 m2 he2
    exact processStream_passive_pre pre _ hpassive _ (by simp [processStream, he2])
  have h1 := herr rest m he
  have h2 : m.errTruthy = Msg.errTruthy { error := m.error } := rfl
  refine ⟨h1, ?_, ?_, ?_⟩
  · rw [h1, herr rest { error := m.error } (h2 ▸ he)]
  · intro args prompt system
    simp [runQwen, h1]
  · intro args env prompt system_prompt ev0 hb hp hs ha hh
    unfold mainRun mainGo
    rw [hb, hp, hs, ha, hh]
    simp [runQwen, h1]

/-- Witness for C9 at a concrete stream: a passive prefix, then a line
carrying error, response and done together; and a concrete full run whose
exit status is 1. -/
theorem stream_error_precedence_witness :
    processStream ([Line.blank, Line.msg { response := some "x" }]
        ++ Line.msg { error := some "boom", response := some "y", done := true }
        :: [Line.msg { response := some "z" }]) = Except.error "boom" ∧
    (mainRun { prompt := ["ping"] }
        { envAllOk with
          httpLines :=
            Except.ok ([Line.blank, Line.msg { response := some "x" }]
              ++ Line.msg { error := some "boom", response := some "y", done := true }
              :: [Line.msg { response := some "z" }]) }).2 = 1 :=
  ⟨(stream_error_precedence [Line.blank, Line.msg { response := some "x" }]
      { error := some "boom", response := some "y", done := true }
      [Line.msg { response := some "z" }] (by decide) (by decide)).1,
    (stream_error_precedence [Line.blank, Line.msg { response := some "x" }]
      { error := some "boom", response := some "y", done := true }
      [Line.msg { response := some "z" }] (by decide) (by decide)).2.2.2
      { prompt := ["ping"] } _ "ping" "" [] (by rfl) (by rfl) (by rfl) (by rfl) (by rfl)⟩

/-- C8: with positional tokens the resolved prompt is the tokens joined by
single spaces and stripped; with no tokens the prompt is the stripped stdin,
and when that is empty the usage message goes to the error stream and the
program exits with status 1 (also shown at the level of a whole run). -/
theorem prompt_resolution :
    (∀ (toks : List String) (stdin : String), toks ≠ [] →
      getPrompt toks stdin = Except.ok (strip (String.intercalate " " toks))) ∧
    (∀ stdin : String, strip stdin ≠ "" →
      getPrompt [] stdin = Except.ok (strip stdin)) ∧
    (∀ stdin : String, strip stdin = "" →
      getPrompt [] stdin =
        Except.error ([Event.errPrint "qw: provide a prompt as args or stdin"], 1)) ∧
    (∀ (args : Args) (env : Env),
      ensureBins (requiredBins args) env.which = Except.ok () →
      args.prompt = [] → strip env.stdinData = "" →
      mainRun args env = ([Event.errPrint "qw: provide a prompt as args or stdin"], 1)) := by
  refine ⟨?_, ?_, ?_, ?_⟩
  · intro toks stdin h
    simp [getPrompt, h]
  · intro stdin h
    simp [getPrompt, h]
  · intro stdin h
    simp [getPrompt, h]
  · intro args env hb hp hstdin
    unfold mainRun mainGo
    rw [hb]
    simp [getPrompt, hp, hstdin]

/-- Witness for C8 at concrete inputs: tokens, non-empty stdin, empty
stdin, and a whole run with an all-whitespace stdin. -/
theorem prompt_resolution_witness :
    getPrompt ["hello", "world"] "" =
      Except.ok (strip (String.intercalate " " ["hello", "world"])) ∧
    getPrompt [] " hi " = Except.ok (strip " hi ") ∧
    getPrompt [] " \n " =
      Except.error ([Event.errPrint "qw: provide a prompt as args or stdin"], 1) ∧
    mainRun {} { envAllOk with stdinData := "  " } =
      ([Event.errPrint "qw: provide a prompt as args or stdin"], 1) :=
  ⟨prompt_resolution.1 ["hello", "world"] "" (by decide),
    prompt_resolution.2.1 " hi " (by decide),
    prompt_resolution.2.2.1 " \n " (by decide),
    prompt_resolution.2.2.2 {} { envAllOk with stdinData := "  " } (by rfl) (by rfl) (by decide)⟩

/-- C10: the request payload always carries the keys model, prompt and
stream with stream fixed to true; it carries the system key exactly when
the loaded system-prompt text is non-empty; and a sys file whose content is
empty loads to the same empty system prompt as no sys flag at all, hence an
identical payload. -/
theorem payload_keys :
    (∀ (model prompt : String) (temp top_p max_tokens seed : Option Int)
        (system : String) (stop : Option (List String)),
      "model" ∈ (buildPayload model prompt temp top_p max_tokens seed system stop).map Prod.fst ∧
      "prompt" ∈ (buildPayload model prompt temp top_p max_tokens seed system stop).map Prod.fst ∧
      ("stream", JVal.b true) ∈ buildPayload model prompt temp top_p max_tokens seed system stop ∧
      ("system" ∈ (buildPayload model prompt temp top_p max_tokens seed system stop).map Prod.fst
        ↔ system ≠ "")) ∧
    (∀ p : String, loadSysPrompt (some p) (Except.ok "") = Except.ok "") ∧
    (∀ r : Except String String, loadSysPrompt none r = Except.ok "") := by
  refine ⟨?_, ?_, ?_⟩
  · intro model prompt temp top_p max_tokens seed system stop
    refine ⟨?_, ?_, ?_, ?_⟩
    · simp [buildPayload]
    · simp [buildPayload]
    · simp [buildPayload]
    · constructor
      · intro hmem hsys
        subst hsys
        rcases temp with _ | t <;> rcases top_p with _ | tp <;>
          rcases max_tokens with _ | mt <;> rcases seed with _ | sd <;>
          rcases stop with _ | l <;>
          simp [buildPayload, optEntry] at hmem
      · intro hsys
        simp [buildPayload, hsys]
  · intro p
    by_cases hp : p = "" <;> simp [loadSysPrompt, hp]
  · intro r
    simp [loadSysPrompt]

lemma mainRun_reach (args : Args) (env : Env) (p s : String) (ev0 ev1 : List Event)
    (q : String)
    (hb : ensureBins (requiredBins args) env.which = Except.ok ())
    (hp : getPrompt args.prompt env.stdinData = Except.ok p)
    (hs : loadSysPrompt args.sys_path env.sysRead = Except.ok s)
    (ha : autoPullStep args env.pullRes = Except.ok ev0)
    (hq : runQwen args p s env.httpLines = Except.ok (ev1, q)) :
    mainRun args env =
      (ev0 ++ ev1 ++ (if !args.quiet && !args.json then [Event.echoPrint q] else [])
          ++ (codexCore args env.codexRes env.claudeRes env.logRes env.shellRes p q).1,
        (codexCore args env.codexRes env.claudeRes env.logRes env.shellRes p q).2) := by
  unfold mainRun mainGo
  simp only [hb, hp, hs, ha, hq]

lemma autoPullStep_ok (args : Args) (res : SubprocResult) (ev0 : List Event)
    (h : autoPullStep args res = Except.ok ev0) :
    ev0 = [] ∨ ev0 = [Event.runProc ["ollama", "pull", args.model]] := by
  unfold autoPullStep maybeAutoPull at h
  by_cases hap : args.auto_pull
  · rw [if_pos hap] at h
    by_cases hrc : res.returncode = 0
    · rw [if_pos hrc] at h
      cases h
      right; rfl
    · rw [if_neg hrc] at h
      exact absurd h (by simp)
  · rw [if_neg hap] at h
    cases h
    left; rfl

lemma runQwen_ok_events (args : Args) (p s : String)
    (hl : Except String (List Line)) (ev1 : List Event) (q : String)
    (h : runQwen args p s hl = Except.ok (ev1, q)) :
    ev1 = [Event.httpPost (buildPayload args.model p args.temp args.top_p
      args.max_tokens args.seed s args.stop)] := by
  cases hl with
  | error e => simp [runQwen] at h
  | ok lines =>
    simp only [runQwen] at h
    cases hp : processStream lines with
    | error e => rw [hp] at h; simp at h
    | ok cs =>
      rw [hp] at h
      simp only [Except.ok.injEq, Prod.mk.injEq] at h
      exact h.1.symm

lemma runQwen_error_code (args : Args) (p s : String)
    (hl : Except String (List Line)) (r : List Event × Int)
    (h : runQwen args p s hl = Except.error r) : r.2 = 1 := by
  cases hl with
  | error e =>
    simp only [runQwen, Except.error.injEq] at h
    rw [← h]
  | ok lines =>
    simp only [runQwen] at h
    cases hp : processStream lines with
    | error e =>
      rw [hp] at h
      simp only [Except.error.injEq] at h
      rw [← h]
    | ok cs => rw [hp] at h; simp at h

lemma jsonPrints_append (a b : List Event) :
    jsonPrints (a ++ b) = jsonPrints a ++ jsonPrints b := by
  simp [jsonPrints]

lemma logWrites_append (a b : List Event) :
    logWrites (a ++ b) = logWrites a ++ logWrites b := by
  simp [logWrites]

lemma runShellCore_clean (cmd : String) (res : SubprocResult) :
    jsonPrints (runShellCore cmd res).1 = [] ∧
    (runShellCore cmd res).1.any isHumanPrint = false ∧
    logWrites (runShellCore cmd res).1 = [] := by
  unfold runShellCore
  by_cases h1 : res.stdout = "" <;> by_cases h2 : res.stderr = "" <;>
    simp [h1, h2, jsonPrints, logWrites, isHumanPrint]

lemma executeCore_clean (args : Args) (sh : SubprocResult) (q : String)
    (c l : Option String) :
    jsonPrints (executeCore args sh q c l).1 = [] ∧
    (executeCore args sh q c l).1.any isHumanPrint = false ∧
    logWrites (executeCore args sh q c l).1 = [] := by
  unfold executeCore
  by_cases hx : args.execute
  · rw [if_pos hx]
    by_cases hempty : pyOrStr (c.getD "") (pyOrStr (l.getD "") q) = ""
    · rw [if_pos hempty]
      simp [jsonPrints, logWrites, isHumanPrint]
    · rw [if_neg hempty]
      exact runShellCore_clean _ sh
  · rw [if_neg hx]
    simp [jsonPrints, logWrites, isHumanPrint]

lemma logEventsOf_clean (args : Args) (lr : Except String Unit) (pr q : String)
    (c l : Option String) :
    jsonPrints (logEventsOf args lr pr q c l) = [] ∧
    (logEventsOf args lr pr q c l).any isHumanPrint = false := by
  unfold logEventsOf
  rcases args.log_file with _ | p
  · simp [jsonPrints, isHumanPrint]
  · by_cases hp : p = ""
    · simp [hp, jsonPrints, isHumanPrint]
    · rcases lr with e | u <;> simp [hp, jsonPrints, isHumanPrint]

lemma logCore_clean (args : Args) (lr : Except String Unit) (sh : SubprocResult)
    (pr q : String) (c l : Option String) :
    jsonPrints (logCore args lr sh pr q c l).1 = [] ∧
    (logCore args lr sh pr q c l).1.any isHumanPrint = false := by
  unfold logCore
  have h1 := logEventsOf_clean args lr pr q c l
  have h2 := executeCore_clean args sh q c l
  simp [jsonPrints_append, h1.1, h1.2, h2.1, h2.2.1, List.any_append]

lemma logCore_logWrites (args : Args) (lr : Except String Unit) (sh : SubprocResult)
    (pr q : String) (c l : Option String) :
    logWrites (logCore args lr sh pr q c l).1 = logWrites (logEventsOf args lr pr q c l) := by
  unfold logCore
  have h2 := executeCore_clean args sh q c l
  simp [logWrites_append, h2.2.2]

lemma jsonCore_facts (args : Args) (lr : Except String Unit) (sh : SubprocResult)
    (pr q : String) (c l : Option String) (hj : args.json = true) :
    jsonPrints (jsonCore args lr sh pr q c l).1 = [jsonObj q c l] ∧
    (jsonCore args lr sh pr q c l).1.any isHumanPrint = false ∧
    logWrites (jsonCore args lr sh pr q c l).1 = logWrites (logEventsOf args lr pr q c l) := by
  unfold jsonCore
  have h1 := logCore_clean args lr sh pr q c l
  have h2 := logCore_logWrites args lr sh pr q c l
  rw [hj]
  refine ⟨?_, ?_, ?_⟩
  · rw [if_pos rfl, jsonPrints_append, h1.1]
    simp [jsonPrints]
  · rw [if_pos rfl, List.any_append, h1.2]
    simp [isHumanPrint]
  · rw [if_pos rfl, logWrites_append, h2]
    simp [logWrites]

@[simp]
lemma jsonPrints_nil : jsonPrints [] = [] := rfl

@[simp]
lemma logWrites_nil : logWrites [] = [] := rfl

lemma if_echo_cases (c : Prop) [Decidable c] (q : String) :
    (if c then [Event.echoPrint q] else []) = [] ∨
    (if c then [Event.echoPrint q] else []) = [Event.echoPrint q] := by
  by_cases h : c
  · right
    rw [if_pos h]
  · left
    rw [if_neg h]

@[simp]
lemma jsonPrints_cons_errPrint (x : String) (t : List Event) :
    jsonPrints (Event.errPrint x :: t) = jsonPrints t := rfl

@[simp]
lemma jsonPrints_cons_echoPrint (x : String) (t : List Event) :
    jsonPrints (Event.echoPrint x :: t) = jsonPrints t := rfl

@[simp]
lemma jsonPrints_cons_sectionPrint (x y : String) (t : List Event) :
    jsonPrints (Event.sectionPrint x y :: t) = jsonPrints t := rfl

@[simp]
lemma jsonPrints_cons_execPrint (x : String) (t : List Event) :
    jsonPrints (Event.execPrint x :: t) = jsonPrints t := rfl

@[simp]
lemma jsonPrints_cons_jsonPrint (o : List (String × String)) (t : List Event) :
    jsonPrints (Event.jsonPrint o :: t) = o :: jsonPrints t := rfl

@[simp]
lemma jsonPrints_cons_httpPost (p : List (String × JVal)) (t : List Event) :
    jsonPrints (Event.httpPost p :: t) = jsonPrints t := rfl

@[simp]
lemma jsonPrints_cons_runProc (a : List String) (t : List Event) :
    jsonPrints (Event.runProc a :: t) = jsonPrints t := rfl

@[simp]
lemma jsonPrints_cons_logWrite (r : LogRecord) (t : List Event) :
    jsonPrints (Event.logWrite r :: t) = jsonPrints t := rfl

@[simp]
lemma logWrites_cons_errPrint (x : String) (t : List Event) :
    logWrites (Event.errPrint x :: t) = logWrites t := rfl

@[simp]
lemma logWrites_cons_echoPrint (x : String) (t : List Event) :
    logWrites (Event.echoPrint x :: t) = logWrites t := rfl

@[simp]
lemma logWrites_cons_sectionPrint (x y : String) (t : List Event) :
    logWrites (Event.sectionPrint x y :: t) = logWrites t := rfl

@[simp]
lemma logWrites_cons_execPrint (x : String) (t : List Event) :
    logWrites (Event.execPrint x :: t) = logWrites t := rfl

@[simp]
lemma logWrites_cons_jsonPrint (o : List (String × String)) (t : List Event) :
    logWrites (Event.jsonPrint o :: t) = logWrites t := rfl

@[simp]
lemma logWrites_cons_httpPost (p : List (String × JVal)) (t : List Event) :
    logWrites (Event.httpPost p :: t) = logWrites t := rfl

@[simp]
lemma logWrites_cons_runProc (a : List String) (t : List Event) :
    logWrites (Event.runProc a :: t) = logWrites t := rfl

@[simp]
lemma logWrites_cons_logWrite (r : LogRecord) (t : List Event) :
    logWrites (Event.logWrite r :: t) = r :: logWrites t := rfl

@[simp]
lemma isHumanPrint_errPrint (x : String) : isHumanPrint (Event.errPrint x) = false := rfl

@[simp]
lemma isHumanPrint_echoPrint (x : String) : isHumanPrint (Event.echoPrint x) = true := rfl

@[simp]
lemma isHumanPrint_sectionPrint (x y : String) :
    isHumanPrint (Event.sectionPrint x y) = true := rfl

@[simp]
lemma isHumanPrint_execPrint (x : String) : isHumanPrint (Event.execPrint x) = false := rfl

@[simp]
lemma isHumanPrint_jsonPrint (o : List (String × String)) :
    isHumanPrint (Event.jsonPrint o) = false := rfl

@[simp]
lemma isHumanPrint_httpPost (p : List (String × JVal)) :
    isHumanPrint (Event.httpPost p) = false := rfl

@[simp]
lemma isHumanPrint_runProc (a : List String) : isHumanPrint (Event.runProc a) = false := rfl

@[simp]
lemma isHumanPrint_logWrite (r : LogRecord) : isHumanPrint (Event.logWrite r) = false := rfl

@[simp]
lemma isClaudeProc_errPrint (x : String) : isClaudeProc (Event.errPrint x) = false := rfl

@[simp]
lemma isClaudeProc_echoPrint (x : String) : isClaudeProc (Event.echoPrint x) = false := rfl

@[simp]
lemma isClaudeProc_sectionPrint (x y : String) :
    isClaudeProc (Event.sectionPrint x y) = false := rfl

@[simp]
lemma isClaudeProc_execPrint (x : String) : isClaudeProc (Event.execPrint x) = false := rfl

@[simp]
lemma isClaudeProc_jsonPrint (o : List (String × String)) :
    isClaudeProc (Event.jsonPrint o) = false := rfl

@[simp]
lemma isClaudeProc_httpPost (p : List (String × JVal)) :
    isClaudeProc (Event.httpPost p) = false := rfl

@[simp]
lemma isClaudeProc_logWrite (r : LogRecord) : isClaudeProc (Event.logWrite r) = false := rfl

@[simp]
lemma isClaudeProc_runProc (a : List String) :
    isClaudeProc (Event.runProc a) = (a.head? == some "claude") := rfl

lemma jsonCore_logWrites (args : Args) (lr : Except String Unit) (sh : SubprocResult)
    (pr q : String) (c l : Option String) :
    logWrites (jsonCore args lr sh pr q c l).1 =
      logWrites (logEventsOf args lr pr q c l) := by
  unfold jsonCore
  have h2 := logCore_logWrites args lr sh pr q c l
  by_cases hj : args.json = true <;>
    simp [hj, logWrites_append, logWrites_nil, h2]

lemma claudeCore_logWrites (args : Args) (clRes : SubprocResult)
    (lr : Except String Unit) (sh : SubprocResult) (pr q : String) (cx : Option String)
    (hcl : args.claude = true → clRes.returncode = 0) :
    logWrites (claudeCore args clRes lr sh pr q cx).1 =
      logWrites (logEventsOf args lr pr q cx
        (if args.claude then some (strip clRes.stdout) else none)) := by
  by_cases hc : args.claude = true
  · have h0 := hcl hc
    unfold claudeCore relayRun
    rw [if_pos hc, if_pos h0]
    have hjw := jsonCore_logWrites args lr sh pr q cx (some (strip clRes.stdout))
    by_cases hj : args.json = true <;>
      simp [hc, hj, logWrites_append, logWrites_nil, hjw]
  · unfold claudeCore
    rw [if_neg hc]
    have hjw := jsonCore_logWrites args lr sh pr q cx none
    simp [hc, hjw]

lemma codexCore_logWrites (args : Args) (cRes clRes : SubprocResult)
    (lr : Except String Unit) (sh : SubprocResult) (pr q : String)
    (hcx : args.codex = true → cRes.returncode = 0)
    (hcl : args.claude = true → clRes.returncode = 0) :
    logWrites (codexCore args cRes clRes lr sh pr q).1 =
      logWrites (logEventsOf args lr pr q
        (if args.codex then some (strip cRes.stdout) else none)
        (if args.claude then some (strip clRes.stdout) else none)) := by
  by_cases hc : args.codex = true
  · have h0 := hcx hc
    unfold codexCore relayRun
    rw [if_pos hc, if_pos h0]
    have hcw := claudeCore_logWrites args clRes lr sh pr q (some (strip cRes.stdout)) hcl
    by_cases hj : args.json = true <;>
      simp [hc, hj, logWrites_append, logWrites_nil, hcw]
  · unfold codexCore
    rw [if_neg hc]
    have hcw := claudeCore_logWrites args clRes lr sh pr q none hcl
    simp [hc, hcw]

lemma claudeCore_facts (args : Args) (clRes : SubprocResult) (lr : Except String Unit)
    (sh : SubprocResult) (pr q : String) (cx : Option String) (hj : args.json = true)
    (hcl : args.claude = true → clRes.returncode = 0) :
    jsonPrints (claudeCore args clRes lr sh pr q cx).1 =
      [jsonObj q cx (if args.claude then some (strip clRes.stdout) else none)] ∧
    (claudeCore args clRes lr sh pr q cx).1.any isHumanPrint = false := by
  by_cases hc : args.claude = true
  · have h0 := hcl hc
    unfold claudeCore relayRun
    rw [if_pos hc, if_pos h0]
    have hf := jsonCore_facts args lr sh pr q cx (some (strip clRes.stdout)) hj
    simp [hc, hj, jsonPrints_append, List.any_append, jsonPrints_nil, hf.1, hf.2.1]
  · unfold claudeCore
    rw [if_neg hc]
    have hf := jsonCore_facts args lr sh pr q cx none hj
    simp [hc, hf.1, hf.2.1]

lemma codexCore_facts (args : Args) (cRes clRes : SubprocResult)
    (lr : Except String Unit) (sh : SubprocResult) (pr q : String)
    (hj : args.json = true)
    (hcx : args.codex = true → cRes.returncode = 0)
    (hcl : args.claude = true → clRes.returncode = 0) :
    jsonPrints (codexCore args cRes clRes lr sh pr q).1 =
      [jsonObj q (if args.codex then some (strip cRes.stdout) else none)
        (if args.claude then some (strip clRes.stdout) else none)] ∧
    (codexCore args cRes clRes lr sh pr q).1.any isHumanPrint = false := by
  by_cases hc : args.codex = true
  · have h0 := hcx hc
    unfold codexCore relayRun
    rw [if_pos hc, if_pos h0]
    have hf := claudeCore_facts args clRes lr sh pr q (some (strip cRes.stdout)) hj hcl
    simp [hc, hj, jsonPrints_append, List.any_append, jsonPrints_nil, hf.1, hf.2]
  · unfold codexCore
    rw [if_neg hc]
    have hf := claudeCore_facts args clRes lr sh pr q none hj hcl
    simp [hc, hf.1, hf.2]

lemma claudeCore_snd_logRes (args : Args) (clRes : SubprocResult)
    (lr lr2 : Except String Unit) (sh : SubprocResult) (pr q : String)
    (cx : Option String) :
    (claudeCore args clRes lr sh pr q cx).2 = (claudeCore args clRes lr2 sh pr q cx).2 := by
  unfold claudeCore
  by_cases hc : args.claude = true
  · rw [if_pos hc, if_pos hc]
    cases hr : relayRun "claude" ["claude", "-t", args.timeout, q] clRes args.json
        "qw: claude failed" with
    | error r => rfl
    | ok evreply => rfl
  · rw [if_neg hc, if_neg hc]
    rfl

lemma codexCore_snd_logRes (args : Args) (cRes clRes : SubprocResult)
    (lr lr2 : Except String Unit) (sh : SubprocResult) (pr q : String) :
    (codexCore args cRes clRes lr sh pr q).2 = (codexCore args cRes clRes lr2 sh pr q).2 := by
  unfold codexCore
  by_cases hc : args.codex = true
  · rw [if_pos hc, if_pos hc]
    cases hr : relayRun "codex" ["codex", "exec", "--timeout", args.timeout, q] cRes
        args.json "qw: codex failed" with
    | error r => rfl
    | ok evreply =>
      exact claudeCore_snd_logRes args clRes lr lr2 sh pr q (some evreply.2)
  · rw [if_neg hc, if_neg hc]
    exact claudeCore_snd_logRes args clRes lr lr2 sh pr q none

lemma mainGo_snd_logRes (args : Args) (stdinData : String) (which : String → Bool)
    (sysRead : Except String String) (pullRes : SubprocResult)
    (httpLines : Except String (List Line)) (codexRes claudeRes : SubprocResult)
    (lr lr2 : Except String Unit) (sh : SubprocResult) :
    (mainGo args stdinData which sysRead pullRes httpLines codexRes claudeRes lr sh).2 =
      (mainGo args stdinData which sysRead pullRes httpLines codexRes claudeRes lr2 sh).2 := by
  unfold mainGo
  cases h1 : ensureBins (requiredBins args) which with
  | error r => rfl
  | ok u =>
    dsimp only
    cases h2 : getPrompt args.prompt stdinData with
    | error r => rfl
    | ok prompt =>
      dsimp only
      cases h3 : loadSysPrompt args.sys_path sysRead with
      | error r => rfl
      | ok system_prompt =>
        dsimp only
        cases h4 : autoPullStep args pullRes with
        | error r => rfl
        | ok ev0 =>
          dsimp only
          cases h5 : runQwen args prompt system_prompt httpLines with
          | error r => rfl
          | ok evq =>
            obtain ⟨ev1, q⟩ := evq
            exact codexCore_snd_logRes args codexRes claudeRes lr lr2 sh prompt q

/-- C2 counterexample: when the codex relay ran and produced an empty
(stripped) reply while the raw model reply is "ls" and no claude relay ran,
the spec-described chosen text is the codex reply, which is empty, so the
claim requires an error exit without any shell invocation; the code instead
falls through the Python or-chain and executes "ls" with exit status 0. -/
theorem execute_choice_counterexample :
    specChosenReply (some "") none "ls" = "" ∧
    executeCore { execute := true } ⟨0, "", ""⟩ "ls" (some "") none =
      ([Event.runProc ["/bin/sh", "-c", "ls"]], 0) := by
  constructor
  · rfl
  · decide

/-- C2 amended: the text run by the execute step is the first non-empty
candidate in priority order codex reply (when that relay ran), claude reply
(when that relay ran), raw model reply — an empty relay reply is skipped
rather than selected; only when every candidate is empty does the program
report an error and exit 1 without invoking any shell command. -/
theorem execute_choice_amended (args : Args) (sh : SubprocResult) (qwen : String)
    (codex claude : Option String) (hx : args.execute = true) :
    (pyOrStr (codex.getD "") (pyOrStr (claude.getD "") qwen) = "" →
      executeCore args sh qwen codex claude =
        ([Event.errPrint "qw: nothing to execute"], 1)) ∧
    (pyOrStr (codex.getD "") (pyOrStr (claude.getD "") qwen) ≠ "" →
      (executeCore args sh qwen codex claude).1.head? =
        some (Event.runProc
          ["/bin/sh", "-c", pyOrStr (codex.getD "") (pyOrStr (claude.getD "") qwen)]) ∧
      (executeCore args sh qwen codex claude).2 =
        (if sh.returncode = 0 then 0 else sh.returncode)) := by
  constructor
  · intro h
    unfold executeCore
    rw [if_pos hx, if_pos h]
  · intro h
    unfold executeCore runShellCore
    rw [if_pos hx, if_neg h]
    constructor
    · by_cases h1 : sh.stdout = "" <;> by_cases h2 : sh.stderr = "" <;> simp [h1, h2]
    · rfl

/-- Witness for the amended C2: all candidates empty (codex ran but empty),
and a non-empty claude reply chosen over a non-empty raw reply. -/
theorem execute_choice_amended_witness :
    executeCore { execute := true } ⟨0, "", ""⟩ "" (some "") none =
      ([Event.errPrint "qw: nothing to execute"], 1) ∧
    (executeCore { execute := true } ⟨0, "", ""⟩ "hi" none (some "run this")).1.head? =
      some (Event.runProc ["/bin/sh", "-c", "run this"]) :=
  ⟨(execute_choice_amended { execute := true } ⟨0, "", ""⟩ "" (some "") none rfl).1
      (by decide),
    ((execute_choice_amended { execute := true } ⟨0, "", ""⟩ "hi" none
      (some "run this") rfl).2 (by decide)).1⟩

/-- C3 counterexample: when the auto-pull subprocess fails with exit code 2
the program exits with 2, not with the claimed status 1. -/
theorem exit_code_autopull_counterexample :
    (mainRun { prompt := ["hi"], auto_pull := true }
        { envAllOk with pullRes := ⟨2, "", "boom"⟩ }).2 = 2 ∧ (2 : Int) ≠ 1 := by
  constructor
  · decide
  · decide

/-- C3 amended: a failing run exits with status exactly 1 for a missing
prompt, missing required binaries, a system-prompt read failure and an
inference failure; a failing auto-pull step instead exits with the pull
subprocess exit code (with 1 substituted only for a falsy zero code). -/
theorem exit_codes_amended (args : Args) (env : Env) :
    ((requiredBins args).filter (fun b => !(env.which b)) ≠ [] →
      (mainRun args env).2 = 1) ∧
    (ensureBins (requiredBins args) env.which = Except.ok () → args.prompt = [] →
      strip env.stdinData = "" → (mainRun args env).2 = 1) ∧
    (∀ (p pth e : String),
      ensureBins (requiredBins args) env.which = Except.ok () →
      getPrompt args.prompt env.stdinData = Except.ok p →
      args.sys_path = some pth → pth ≠ "" → env.sysRead = Except.error e →
      (mainRun args env).2 = 1) ∧
    (∀ (p s : String),
      ensureBins (requiredBins args) env.which = Except.ok () →
      getPrompt args.prompt env.stdinData = Except.ok p →
      loadSysPrompt args.sys_path env.sysRead = Except.ok s →
      args.auto_pull = true → env.pullRes.returncode ≠ 0 →
      (mainRun args env).2 = pyOrIntOne env.pullRes.returncode) ∧
    (∀ (p s : String) (ev0 : List Event) (r : List Event × Int),
      ensureBins (requiredBins args) env.which = Except.ok () →
      getPrompt args.prompt env.stdinData = Except.ok p →
      loadSysPrompt args.sys_path env.sysRead = Except.ok s →
      autoPullStep args env.pullRes = Except.ok ev0 →
      runQwen args p s env.httpLines = Except.error r →
      (mainRun args env).2 = 1) := by
  refine ⟨?_, ?_, ?_, ?_, ?_⟩
  · intro h
    unfold mainRun mainGo ensureBins
    simp [h]
  · intro hb hp hstdin
    unfold mainRun mainGo
    simp only [hb]
    simp [getPrompt, hp, hstdin]
  · intro p pth e hb hp hsp hne hre
    unfold mainRun mainGo
    simp only [hb, hp]
    simp [loadSysPrompt, hsp, hne, hre]
  · intro p s hb hp hs hap hrc
    unfold mainRun mainGo
    simp only [hb, hp, hs]
    simp [autoPullStep, maybeAutoPull, hap, hrc]
  · intro p s ev0 r hb hp hs ha hq
    unfold mainRun mainGo
    simp only [hb, hp, hs, ha, hq]
    exact runQwen_error_code args p s env.httpLines r hq

/-- Witness for the amended C3: concrete runs exercising each failure kind,
with the auto-pull failure exiting with the pull code 3. -/
theorem exit_codes_amended_witness :
    (mainRun { codex := true } { envAllOk with which := fun b => b != "codex" }).2 = 1 ∧
    (mainRun {} { envAllOk with stdinData := " " }).2 = 1 ∧
    (mainRun { prompt := ["hi"], sys_path := some "f" }
        { envAllOk with sysRead := Except.error "denied" }).2 = 1 ∧
    (mainRun { prompt := ["hi"], auto_pull := true }
        { envAllOk with pullRes := ⟨3, "", ""⟩ }).2 = pyOrIntOne 3 ∧
    (mainRun { prompt := ["hi"] }
        { envAllOk with httpLines := Except.error "connection refused" }).2 = 1 :=
  ⟨(exit_codes_amended { codex := true }
      { envAllOk with which := fun b => b != "codex" }).1 (by decide),
    (exit_codes_amended {} { envAllOk with stdinData := " " }).2.1 (by rfl) (by rfl)
      (by decide),
    (exit_codes_amended { prompt := ["hi"], sys_path := some "f" }
      { envAllOk with sysRead := Except.error "denied" }).2.2.1 "hi" "f" "denied"
      (by rfl) (by rfl) (by rfl) (by decide) (by rfl),
    (exit_codes_amended { prompt := ["hi"], auto_pull := true }
      { envAllOk with pullRes := ⟨3, "", ""⟩ }).2.2.2.1 "hi" "" (by rfl) (by rfl)
      (by rfl) (by rfl) (by decide),
    (exit_codes_amended { prompt := ["hi"] }
      { envAllOk with httpLines := Except.error "connection refused" }).2.2.2.2 "hi" ""
      [] _ (by rfl) (by rfl) (by rfl) (by rfl) (by rfl)⟩

/-- C4 counterexample: with the codex relay requested but its executable
missing and no prompt available anywhere, the program emits the
missing-command error, not the claimed missing-prompt usage error. -/
theorem bins_before_prompt_counterexample :
    mainRun { codex := true }
        { envAllOk with stdinData := " ", which := fun b => b != "codex" } =
      ([Event.errPrint "qw: missing required command(s): codex"], 1) ∧
    Event.errPrint "qw: provide a prompt as args or stdin" ∉
      (mainRun { codex := true }
        { envAllOk with stdinData := " ", which := fun b => b != "codex" }).1 := by
  constructor
  · decide
  · decide

/-- C4 amended: the binary availability check runs before prompt resolution:
when a requested relay executable is missing the missing-command error is
emitted and the program exits 1 even if the prompt is also missing; only
when every requested binary is present does a missing prompt produce the
usage error with exit 1. -/
theorem bins_before_prompt_amended (args : Args) (env : Env) :
    ((requiredBins args).filter (fun b => !(env.which b)) ≠ [] →
      mainRun args env =
        ([Event.errPrint ("qw: missing required command(s): " ++ String.intercalate ", "
            ((requiredBins args).filter (fun b => !(env.which b))))], 1)) ∧
    ((requiredBins args).filter (fun b => !(env.which b)) = [] → args.prompt = [] →
      strip env.stdinData = "" →
      mainRun args env = ([Event.errPrint "qw: provide a prompt as args or stdin"], 1)) := by
  constructor
  · intro h
    unfold mainRun mainGo ensureBins
    simp [h]
  · intro hbins hp hstdin
    unfold mainRun mainGo ensureBins
    simp [hbins, getPrompt, hp, hstdin]

/-- Witness for the amended C4: the missing-binary run and the
missing-prompt run, both concrete. -/
theorem bins_before_prompt_amended_witness :
    mainRun { claude := true }
        { envAllOk with stdinData := "", which := fun b => b != "claude" } =
      ([Event.errPrint "qw: missing required command(s): claude"], 1) ∧
    mainRun {} { envAllOk with stdinData := "\n\n" } =
      ([Event.errPrint "qw: provide a prompt as args or stdin"], 1) :=
  ⟨(bins_before_prompt_amended { claude := true }
      { envAllOk with stdinData := "", which := fun b => b != "claude" }).1 (by decide),
    (bins_before_prompt_amended {} { envAllOk with stdinData := "\n\n" }).2 (by decide)
      (by rfl) (by decide)⟩

/-- C5: a relay subprocess exiting non-zero makes the program print the
captured stderr, else stdout, else a generic message to the error stream
and terminate with that exit code; after a failed codex relay the claude
executable is never invoked, and no JSON object is ever printed after a
relay failure. -/
theorem relay_failure_behavior (args : Args) (env : Env) (p s : String)
    (ev0 ev1 : List Event) (q : String)
    (hb : ensureBins (requiredBins args) env.which = Except.ok ())
    (hp : getPrompt args.prompt env.stdinData = Except.ok p)
    (hs : loadSysPrompt args.sys_path env.sysRead = Except.ok s)
    (ha : autoPullStep args env.pullRes = Except.ok ev0)
    (hq : runQwen args p s env.httpLines = Except.ok (ev1, q)) :
    (args.codex = true → env.codexRes.returncode ≠ 0 →
      (mainRun args env).2 = env.codexRes.returncode ∧
      Event.errPrint (pyOrStr env.codexRes.stderr
        (pyOrStr env.codexRes.stdout "qw: codex failed")) ∈ (mainRun args env).1 ∧
      (mainRun args env).1.any isClaudeProc = false ∧
      jsonPrints (mainRun args env).1 = []) ∧
    (args.claude = true → (args.codex = true → env.codexRes.returncode = 0) →
      env.claudeRes.returncode ≠ 0 →
      (mainRun args env).2 = env.claudeRes.returncode ∧
      Event.errPrint (pyOrStr env.claudeRes.stderr
        (pyOrStr env.claudeRes.stdout "qw: claude failed")) ∈ (mainRun args env).1 ∧
      jsonPrints (mainRun args env).1 = []) := by
  have hmain := mainRun_reach args env p s ev0 ev1 q hb hp hs ha hq
  have hev1 := runQwen_ok_events args p s env.httpLines ev1 q hq
  subst hev1
  constructor
  · intro hc hrc
    rw [hmain]
    unfold codexCore relayRun
    rw [if_pos hc, if_neg hrc]
    rcases autoPullStep_ok args env.pullRes ev0 ha with h0 | h0 <;> subst h0 <;>
      rcases if_echo_cases ((!args.quiet && !args.json) = true) q with hecho | hecho <;>
      rw [hecho] <;>
      refine ⟨rfl, by simp, ?_, ?_⟩ <;>
      simp [List.any_append, jsonPrints_append]
  · intro hcl hcok hrc
    rw [hmain]
    by_cases hc : args.codex = true
    · have h0 := hcok hc
      unfold codexCore claudeCore relayRun
      rw [if_pos hc, if_pos h0]
      dsimp only
      rw [if_pos hcl, if_neg hrc]
      rcases autoPullStep_ok args env.pullRes ev0 ha with h1 | h1 <;> subst h1 <;>
        rcases if_echo_cases ((!args.quiet && !args.json) = true) q with hecho | hecho <;>
        rw [hecho] <;>
        by_cases hj : args.json = true <;>
        refine ⟨rfl, by simp [hj], ?_⟩ <;>
        simp [hj, jsonPrints_append]
    · unfold codexCore claudeCore relayRun
      rw [if_neg hc, if_pos hcl, if_neg hrc]
      rcases autoPullStep_ok args env.pullRes ev0 ha with h1 | h1 <;> subst h1 <;>
        rcases if_echo_cases ((!args.quiet && !args.json) = true) q with hecho | hecho <;>
        rw [hecho] <;>
        by_cases hj : args.json = true <;>
        refine ⟨rfl, by simp [hj], ?_⟩ <;>
        simp [hj, jsonPrints_append]

/-- Witness for C5: a concrete run in JSON mode with both relays requested
in which codex exits 2 with stderr boom: the error stream receives boom,
the exit status is 2, claude is never invoked and no JSON is printed. -/
theorem relay_failure_behavior_witness :
    (mainRun { prompt := ["hi"], codex := true, claude := true, json := true }
        { envAllOk with codexRes := ⟨2, "", "boom"⟩ }).2 = 2 ∧
    Event.errPrint "boom" ∈
      (mainRun { prompt := ["hi"], codex := true, claude := true, json := true }
        { envAllOk with codexRes := ⟨2, "", "boom"⟩ }).1 ∧
    (mainRun { prompt := ["hi"], codex := true, claude := true, json := true }
        { envAllOk with codexRes := ⟨2, "", "boom"⟩ }).1.any isClaudeProc = false ∧
    jsonPrints (mainRun { prompt := ["hi"], codex := true, claude := true, json := true }
        { envAllOk with codexRes := ⟨2, "", "boom"⟩ }).1 = [] := by
  have h := (relay_failure_behavior
    { prompt := ["hi"], codex := true, claude := true, json := true }
    { envAllOk with codexRes := ⟨2, "", "boom"⟩ } "hi" "" [] _ "hi there"
    (by rfl) (by rfl) (by rfl) (by rfl) (by rfl)).1 rfl (by decide)
  exact ⟨h.1, h.2.1, h.2.2.1, h.2.2.2⟩

/-- C6: in JSON mode, a run in which every requested relay succeeds prints
exactly one JSON object, whose keys are qwen (always, mapped to the model
reply), codex exactly when the codex relay ran, and claude exactly when the
claude relay ran; and no reply echo or relay section is printed. -/
theorem json_mode_output (args : Args) (env : Env) (p s : String)
    (ev0 ev1 : List Event) (q : String)
    (hb : ensureBins (requiredBins args) env.which = Except.ok ())
    (hp : getPrompt args.prompt env.stdinData = Except.ok p)
    (hs : loadSysPrompt args.sys_path env.sysRead = Except.ok s)
    (ha : autoPullStep args env.pullRes = Except.ok ev0)
    (hq : runQwen args p s env.httpLines = Except.ok (ev1, q))
    (hj : args.json = true)
    (hcx : args.codex = true → env.codexRes.returncode = 0)
    (hcl : args.claude = true → env.claudeRes.returncode = 0) :
    jsonPrints (mainRun args env).1 =
      [jsonObj q (if args.codex then some (strip env.codexRes.stdout) else none)
        (if args.claude then some (strip env.claudeRes.stdout) else none)] ∧
    (mainRun args env).1.any isHumanPrint = false ∧
    (∀ (qq : String) (c l : Option String),
      ("qwen", qq) ∈ jsonObj qq c l ∧
      ("codex" ∈ (jsonObj qq c l).map Prod.fst ↔ c.isSome = true) ∧
      ("claude" ∈ (jsonObj qq c l).map Prod.fst ↔ l.isSome = true)) := by
  have hmain := mainRun_reach args env p s ev0 ev1 q hb hp hs ha hq
  have hev1 := runQwen_ok_events args p s env.httpLines ev1 q hq
  subst hev1
  have hfacts := codexCore_facts args env.codexRes env.claudeRes env.logRes
    env.shellRes p q hj hcx hcl
  refine ⟨?_, ?_, ?_⟩
  · rw [hmain]
    rcases autoPullStep_ok args env.pullRes ev0 ha with h0 | h0 <;> subst h0 <;>
      simp [hj, jsonPrints_append, hfacts.1]
  · rw [hmain]
    rcases autoPullStep_ok args env.pullRes ev0 ha with h0 | h0 <;> subst h0 <;>
      simp [hj, List.any_append, hfacts.2]
  · intro qq c l
    refine ⟨by simp [jsonObj], ?_, ?_⟩ <;> cases c <;> cases l <;> simp [jsonObj]

/-- Witness for C6: a concrete JSON-mode run with codex requested and
succeeding: one JSON object with keys qwen and codex and no claude key. -/
theorem json_mode_output_witness :
    jsonPrints (mainRun { prompt := ["hi"], codex := true, json := true } envAllOk).1 =
      [jsonObj "hi there" (some "codex out") none] ∧
    (mainRun { prompt := ["hi"], codex := true, json := true }
        envAllOk).1.any isHumanPrint = false ∧
    ("codex" ∈ (jsonObj "hi there" (some "codex out") none).map Prod.fst ↔
      (some "codex out").isSome = true) := by
  have h := json_mode_output { prompt := ["hi"], codex := true, json := true } envAllOk
    "hi" "" [] _ "hi there" (by rfl) (by rfl) (by rfl) (by rfl) (by rfl) rfl
    (fun _ => rfl) (fun hcl => absurd hcl (by decide))
  exact ⟨h.1, h.2.1, (h.2.2 "hi there" (some "codex out") none).2.1⟩

/-- C7: a failure while writing the run log is reported to the error stream
and never changes the exit status nor stops the rest of the run; a
successful write appends exactly one record with fields prompt, qwen,
codex, claude, the last two none exactly when that relay did not run. -/
theorem log_run_behavior :
    (∀ (args : Args) (env : Env) (e : String),
      (mainRun args { env with logRes := Except.error e }).2 =
        (mainRun args { env with logRes := Except.ok () }).2) ∧
    (∀ (args : Args) (sh : SubprocResult) (pr q : String) (c l : Option String)
        (pth e : String), args.log_file = some pth → pth ≠ "" →
      logCore args (Except.error e) sh pr q c l =
        (Event.errPrint ("qw: failed to log run: " ++ e)
            :: (executeCore args sh q c l).1,
          (executeCore args sh q c l).2)) ∧
    (∀ (args : Args) (env : Env) (p s : String) (ev0 ev1 : List Event) (q : String)
        (pth : String),
      ensureBins (requiredBins args) env.which = Except.ok () →
      getPrompt args.prompt env.stdinData = Except.ok p →
      loadSysPrompt args.sys_path env.sysRead = Except.ok s →
      autoPullStep args env.pullRes = Except.ok ev0 →
      runQwen args p s env.httpLines = Except.ok (ev1, q) →
      (args.codex = true → env.codexRes.returncode = 0) →
      (args.claude = true → env.claudeRes.returncode = 0) →
      args.log_file = some pth → pth ≠ "" → env.logRes = Except.ok () →
      logWrites (mainRun args env).1 =
        [⟨p, q, if args.codex then some (strip env.codexRes.stdout) else none,
          if args.claude then some (strip env.claudeRes.stdout) else none⟩]) := by
  refine ⟨?_, ?_, ?_⟩
  · intro args env e
    exact mainGo_snd_logRes args env.stdinData env.which env.sysRead env.pullRes
      env.httpLines env.codexRes env.claudeRes (Except.error e) (Except.ok ())
      env.shellRes
  · intro args sh pr q c l pth e hlf hne
    unfold logCore logEventsOf
    rw [hlf]
    dsimp only
    rw [if_neg hne]
    rw [List.singleton_append]
  · intro args env p s ev0 ev1 q pth hb hp hs ha hq hcx hcl hlf hne hlr
    have hmain := mainRun_reach args env p s ev0 ev1 q hb hp hs ha hq
    have hev1 := runQwen_ok_events args p s env.httpLines ev1 q hq
    subst hev1
    have hw := codexCore_logWrites args env.codexRes env.claudeRes env.logRes
      env.shellRes p q hcx hcl
    rw [hlr] at hw
    rw [hmain, hlr]
    rcases autoPullStep_ok args env.pullRes ev0 ha with h0 | h0 <;> subst h0 <;>
      rcases if_echo_cases ((!args.quiet && !args.json) = true) q with hecho | hecho <;>
      rw [hecho] <;>
      simp [logWrites_append, hw, logEventsOf, hlf, hne]

/-- Witness for C7: a failing log write leaves the exit status of a
concrete successful run unchanged, reports the failure and still returns
the execute-step outcome; a successful write appends exactly the one
expected record. -/
theorem log_run_behavior_witness :
    (mainRun { prompt := ["hi"], log_file := some "log" }
        { envAllOk with logRes := Except.error "denied" }).2 =
      (mainRun { prompt := ["hi"], log_file := some "log" }
        { envAllOk with logRes := Except.ok () }).2 ∧
    logCore { log_file := some "log" } (Except.error "denied") ⟨0, "", ""⟩
        "p" "q" none none =
      ([Event.errPrint "qw: failed to log run: denied"], 0) ∧
    logWrites (mainRun { prompt := ["hi"], log_file := some "log" } envAllOk).1 =
      [⟨"hi", "hi there", none, none⟩] := by
  refine ⟨?_, ?_, ?_⟩
  · exact log_run_behavior.1 { prompt := ["hi"], log_file := some "log" } envAllOk
      "denied"
  · exact log_run_behavior.2.1 { log_file := some "log" } ⟨0, "", ""⟩ "p" "q"
      none none "log" "denied" rfl (by decide)
  · exact log_run_behavior.2.2 { prompt := ["hi"], log_file := some "log" } envAllOk
      "hi" "" [] _ "hi there" "log" (by rfl) (by rfl) (by rfl) (by rfl) (by rfl)
      (fun h => absurd h (by decide)) (fun h => absurd h (by decide)) rfl
      (by decide) rfl

end MiniQwen
